import Mathlib

/-!
Verification development for the REST-backed metadata store client
(`src/zenml/zen_stores/rest_zen_store.py`).

The embedding translates the store's core, line by line, from the Python
source:

* `Json` models decoded JSON values; a `Response` carries the HTTP status
  code, the raw body text, the body's JSON decoding when it parses
  (`jsonBody = none` models a body that `response.json()` fails to decode,
  raising `requests.exceptions.JSONDecodeError`), and the request URL.
* `PyException` models the Python exceptions the store raises, one
  constructor per exception type, carrying the constructor arguments.
* `handle_response` embeds `RestZenStore._handle_response`.
* `validate_url` embeds `RestZenStore.validate_url`.
* `get_auth_token`, `session_prop`, `rest_request` embed
  `RestZenStore._get_auth_token`, the `session` property and
  `RestZenStore._request`, with the mutable fields `_api_token` and
  `_session` passed as explicit `StoreState`, the network modelled by a
  `Transport` oracle (one response per login call and per data request,
  indexed by call count), and the trace of issued data requests recorded
  as the list of presented Authorization headers.

String rendering of JSON values inside exception *messages* (`pyStr`,
mirroring Python's `str()` inside f-strings) is approximate for nested
containers; no theorem depends on it.
-/

namespace ZenRest

/-- Decoded JSON values, as produced by `response.json()`. -/
inductive Json where
  | null
  | bool (b : Bool)
  | num (n : Int)
  | str (s : String)
  | arr (elems : List Json)
  | obj (fields : List (String × Json))

/-- Python exceptions raised by the store, one constructor per exception
type, carrying the exception arguments (`args`) or message.
`jsonDecodeError` models `requests.exceptions.JSONDecodeError` raised by
`response.json()` on an undecodable body; `attributeError` models calling
`.get` on a non-dict JSON value; `typeError` models iterating or
concatenating a value of the wrong type. -/
inductive PyException where
  | valueError (args : List Json)
  | authorizationException (msg : String)
  | keyError (args : List Json)
  | doesNotExistException (msg : String)
  | stackComponentExistsError (args : List Json)
  | stackExistsError (args : List Json)
  | entityExistsError (args : List Json)
  | runtimeError (args : List Json)
  | jsonDecodeError
  | attributeError
  | typeError

/-- The Python type name of a raised exception: what a caller catching by
exception type can distinguish. -/
def pyTypeName : PyException → String
  | .valueError _ => "ValueError"
  | .authorizationException _ => "AuthorizationException"
  | .keyError _ => "KeyError"
  | .doesNotExistException _ => "DoesNotExistException"
  | .stackComponentExistsError _ => "StackComponentExistsError"
  | .stackExistsError _ => "StackExistsError"
  | .entityExistsError _ => "EntityExistsError"
  | .runtimeError _ => "RuntimeError"
  | .jsonDecodeError => "JSONDecodeError"
  | .attributeError => "AttributeError"
  | .typeError => "TypeError"

/-- An HTTP response as seen by `_handle_response`: `status_code` and
`text` mirror `response.status_code` and `response.text`; `jsonBody` is
`some j` when `response.json()` decodes the body to `j` and `none` when
decoding raises; `url` mirrors `response.url`. -/
structure Response where
  status_code : Nat
  text : String
  jsonBody : Option Json
  url : String

/-- Python `pattern in s` on the raw body text: `pat` occurs as a
contiguous substring of `s`. -/
def infixAt (pat : List Char) : List Char → Bool
  | [] => pat.isEmpty
  | c :: rest => pat.isPrefixOf (c :: rest) || infixAt pat rest

/-- Python `pat in s` for strings. -/
def strContains (s pat : String) : Bool :=
  infixAt pat.data s.data

/-- Python `dict.get(key)` lookup on the fields of a JSON object. -/
def jlookup (fields : List (String × Json)) (key : String) : Option Json :=
  (fields.find? (fun p => p.1 == key)).map (fun p => p.2)

/-- Python iteration over a JSON value (used by the `*` splat and by
`str.join`): lists yield their elements, strings their characters, dicts
their keys; other values are not iterable (`TypeError`). -/
def pyIter : Json → Except PyException (List Json)
  | .arr xs => .ok xs
  | .str s => .ok (s.data.map (fun c => Json.str (String.mk [c])))
  | .obj fields => .ok (fields.map (fun p => Json.str p.1))
  | _ => .error .typeError

/-- The iterated value of `response.json().get("detail", (response.text,))`:
requires the body to decode as JSON (else `JSONDecodeError` propagates) and
to be a dict (else `.get` raises `AttributeError`); yields the iterated
`detail` value when the key is present and the one-element tuple
`(response.text,)` otherwise. -/
def detailIter (r : Response) : Except PyException (List Json) :=
  match r.jsonBody with
  | none => .error .jsonDecodeError
  | some (.obj fields) =>
    match jlookup fields "detail" with
    | some v => pyIter v
    | none => .ok [Json.str r.text]
  | some _ => .error .attributeError

def asStr : Json → Option String
  | .str s => some s
  | _ => none

/-- All the elements of a list of JSON values, when every one is a
string. -/
def strListOf : List Json → Option (List String)
  | [] => some []
  | j :: rest =>
    match asStr j, strListOf rest with
    | some s, some l => some (s :: l)
    | _, _ => none

/-- Python `sep.join(items)`: every element must be a string, else
`TypeError`. -/
def pyJoin (sep : String) (items : List Json) : Except PyException String :=
  match strListOf items with
  | some ss => .ok (String.intercalate sep ss)
  | none => .error .typeError

/-- Python `str()` of a JSON value, as interpolated into f-strings
(approximate for nested containers; no theorem depends on it). -/
def pyStr : Json → String
  | .null => "None"
  | .bool true => "True"
  | .bool false => "False"
  | .num n => toString n
  | .str s => s
  | .arr _ => "[...]"
  | .obj _ => "\x7b...\x7d"

/-- Python `str()` of `dict.get(key)`, which is `None` when absent. -/
def pyStrOpt : Option Json → String
  | none => "None"
  | some j => pyStr j

/-- Raise the given exception with the args from
`response.json().get("detail", (response.text,))`, as every 409 branch and
the 422 branch do; a decoding or attribute failure propagates instead. -/
def errWithDetail (r : Response) (mk : List Json → PyException) :
    Except PyException Json :=
  match detailIter r with
  | .error e => .error e
  | .ok args => .error (mk args)

/-- Embedding of `RestZenStore._handle_response` (rest_zen_store.py,
lines 237-280), branch for branch in source order. -/
def handle_response (r : Response) : Except PyException Json :=
  if 200 ≤ r.status_code ∧ r.status_code < 300 then
    match r.jsonBody with
    | some payload => .ok payload
    | none =>
      .error (.valueError
        [Json.str ("Bad response from API. Expected json, got\n" ++ r.text)])
  else if r.status_code = 401 then
    match r.jsonBody with
    | none => .error .jsonDecodeError
    | some (.obj fields) =>
      .error (.authorizationException
        (toString r.status_code ++ " Client Error: Unauthorized request to URL "
          ++ r.url ++ ": " ++ pyStrOpt (jlookup fields "detail")))
    | some _ => .error .attributeError
  else if r.status_code = 404 then
    if strContains r.text "DoesNotExistException" = false then
      errWithDetail r .keyError
    else
      match detailIter r with
      | .error e => .error e
      | .ok args =>
        match pyJoin ": " args with
        | .error e => .error e
        | .ok message => .error (.doesNotExistException message)
  else if r.status_code = 409 then
    if strContains r.text "StackComponentExistsError" then
      errWithDetail r .stackComponentExistsError
    else if strContains r.text "StackExistsError" then
      errWithDetail r .stackExistsError
    else if strContains r.text "EntityExistsError" then
      errWithDetail r .entityExistsError
    else
      errWithDetail r .valueError
  else if r.status_code = 422 then
    errWithDetail r .runtimeError
  else if r.status_code = 500 then
    .error (.keyError [Json.str r.text])
  else
    .error (.runtimeError
      [Json.str ("Error retrieving from API. Got response "
        ++ toString r.status_code ++ " with body:\n" ++ r.text)])

/-! URL validation (`RestZenStore.validate_url`, lines 127-148). -/

/-- Membership of a character in the regex class `[a-z0-9]`. -/
def pyAlnumLower (c : Char) : Bool :=
  (decide ('a' ≤ c) && decide (c ≤ 'z')) || (decide ('0' ≤ c) && decide (c ≤ '9'))

/-- Python `url.rstrip("/")`: remove every trailing slash. -/
def rstripSlashL (l : List Char) : List Char :=
  (l.reverse.dropWhile (fun c => c = '/')).reverse

/-- Embedding of `re.search("^([a-z0-9]+://)", url)`: the match succeeds
exactly when a nonempty maximal run of `[a-z0-9]` characters at the start
is followed by `://`, and the captured group is that run with `://`
appended (the `+` is greedy and `:` is outside the class, so no
backtracking case arises). -/
def schemeSearchL (l : List Char) : Option (List Char) :=
  let run := l.takeWhile pyAlnumLower
  if run.isEmpty then none
  else if "://".data.isPrefixOf (l.drop run.length) then some (run ++ "://".data)
  else none

/-- The message of the `ValueError` raised by `validate_url` (the source
string has no f-prefix, so the braces are literal). -/
def urlErrMsg : String :=
  "Invalid URL for REST store: \x7burl\x7d. Should be in the form " ++
    "https://hostname[:port] or http://hostname[:port]."

/-- Embedding of `RestZenStore.validate_url` (lines 127-148): strip
trailing slashes, search for the scheme, accept only `https://` and
`http://`. -/
def validate_url (url : String) : Except String String :=
  match schemeSearchL (rstripSlashL url.data) with
  | none => .error urlErrMsg
  | some g =>
    if g = "https://".data ∨ g = "http://".data then
      .ok (String.mk (rstripSlashL url.data))
    else .error urlErrMsg

/-! Session manager and request dispatcher (`_get_auth_token`, the
`session` property and `_request`, lines 182-208 and 282-300).

The mutable attributes `self._api_token` and `self._session` become an
explicit `StoreState`. The network is a `Transport` oracle giving the
translated-input `Response` of the n-th login call and of the n-th data
request of a dispatch. Each issued data request is recorded as the
Authorization header the session presented, so theorems can count
attempts and compare presented tokens. -/

/-- A `requests.Session`, reduced to the headers the store sets on it. -/
structure Session where
  headers : List (String × String)

/-- The Authorization header a session presents on its requests. -/
def headerOf (s : Session) : Option String :=
  (s.headers.find? (fun p => p.1 == "Authorization")).map (fun p => p.2)

/-- The store's mutable authentication state: `self._api_token` (the
value assigned from `_handle_response(...)["token"]`, an arbitrary JSON
value in Python) and `self._session`. -/
structure StoreState where
  api_token : Option Json
  session : Option Session

/-- Network oracle: `login n` is the response to the n-th POST of the
login form, `request n` the response to the n-th data request issued
within one `_request` dispatch. -/
structure Transport where
  login : Nat → Response
  request : Nat → Response

/-- Embedding of `RestZenStore._get_auth_token` (lines 182-198): return
the cached token, or exchange the configured credentials at the login
endpoint, pass the response through `_handle_response`, subscript the
payload with `"token"` and cache the result. Returns the token, the new
state and the new login count. Subscripting a non-dict payload raises
`TypeError`; a missing key raises `KeyError("token")`. -/
def get_auth_token (t : Transport) (st : StoreState) (logins : Nat) :
    Except PyException Json × StoreState × Nat :=
  match st.api_token with
  | some tj => (.ok tj, st, logins)
  | none =>
    match handle_response (t.login logins) with
    | .error e => (.error e, st, logins + 1)
    | .ok payload =>
      match payload with
      | .obj fields =>
        match jlookup fields "token" with
        | some v => (.ok v, { st with api_token := some v }, logins + 1)
        | none => (.error (.keyError [Json.str "token"]), st, logins + 1)
      | _ => (.error .typeError, st, logins + 1)

/-- Embedding of the `session` property (lines 200-208): return the
cached session, or assign a fresh `requests.Session()`, fetch the auth
token and update the session's headers with the bearer Authorization
header. `"Bearer " + token` with a non-string token raises `TypeError`. -/
def session_prop (t : Transport) (st : StoreState) (logins : Nat) :
    Except PyException Session × StoreState × Nat :=
  match st.session with
  | some s => (.ok s, st, logins)
  | none =>
    let st1 : StoreState := { st with session := some ⟨[]⟩ }
    match get_auth_token t st1 logins with
    | (.error e, st2, l2) => (.error e, st2, l2)
    | (.ok tj, st2, l2) =>
      match tj with
      | .str tok =>
        let s : Session := ⟨[("Authorization", "Bearer " ++ tok)]⟩
        (.ok s, { st2 with session := some s }, l2)
      | _ => (.error .typeError, st2, l2)

/-- One attempt of the body of `_request`:
`self._handle_response(self.session.request(method, url, **kwargs))`.
A failure inside the `session` property propagates as the attempt's
error with no data request issued; otherwise the data request is issued
(appending its presented Authorization header to the trace `tr`) and
its response translated. -/
def attempt (t : Transport) (st : StoreState) (logins : Nat)
    (tr : List (Option String)) :
    Except PyException Json × StoreState × Nat × List (Option String) :=
  match session_prop t st logins with
  | (.error e, st1, l1) => (.error e, st1, l1, tr)
  | (.ok s, st1, l1) =>
    (handle_response (t.request tr.length), st1, l1, tr ++ [headerOf s])

/-- `True` exactly for the exception the `except AuthorizationException`
clause of `_request` catches. -/
def isAuthEx : PyException → Bool
  | .authorizationException _ => true
  | _ => false

/-- Outcome of one `_request` dispatch: the returned value or propagated
exception, the final store state, the Authorization headers of the data
requests actually issued (in order), and the number of login calls. -/
structure ReqOutcome where
  result : Except PyException Json
  state : StoreState
  attempts : List (Option String)
  logins : Nat

/-- Embedding of `RestZenStore._request` (lines 282-300): try the
attempt; on `AuthorizationException` set `self._session = None` (note:
`self._api_token` is left untouched by the source) and re-issue the
attempt once, propagating its outcome unconditionally; any other
exception propagates immediately. -/
def rest_request (t : Transport) (st : StoreState) : ReqOutcome :=
  match attempt t st 0 [] with
  | (.ok v, st1, l1, tr1) => ⟨.ok v, st1, tr1, l1⟩
  | (.error e, st1, l1, tr1) =>
    if isAuthEx e then
      match attempt t { st1 with session := none } l1 tr1 with
      | (r2, st2, l2, tr2) => ⟨r2, st2, tr2, l2⟩
    else ⟨.error e, st1, tr1, l1⟩

/-! Helper lemmas shared by several claims. -/

/-- A JSON-object body whose optional `detail` field is a list of
strings, the shape the server's error bodies take. -/
def mkDetailObj : Option (List String) → Json
  | some l => Json.obj [("detail", Json.arr (l.map Json.str))]
  | none => Json.obj []

/-- The exception args `response.json().get("detail", (response.text,))`
produces on such a body: the detail list, or the raw text. -/
def detailArgs (d : Option (List String)) (text : String) : List Json :=
  (d.getD [text]).map Json.str

lemma handle_2xx_ok (s : Nat) (text url : String) (j : Json)
    (h1 : 200 ≤ s) (h2 : s < 300) :
    handle_response ⟨s, text, some j, url⟩ = .ok j := by
  unfold handle_response
  rw [if_pos ⟨h1, h2⟩]

lemma handle_2xx_bad (s : Nat) (text url : String)
    (h1 : 200 ≤ s) (h2 : s < 300) :
    handle_response ⟨s, text, none, url⟩ =
      .error (.valueError
        [Json.str ("Bad response from API. Expected json, got\n" ++ text)]) := by
  unfold handle_response
  rw [if_pos ⟨h1, h2⟩]

lemma handle_500 (text url : String) (jb : Option Json) :
    handle_response ⟨500, text, jb, url⟩ = .error (.keyError [Json.str text]) := by
  simp [handle_response]

lemma handle_unlisted (s : Nat) (text url : String) (jb : Option Json)
    (h1 : ¬ (200 ≤ s ∧ s < 300)) (h2 : s ≠ 401) (h3 : s ≠ 404)
    (h4 : s ≠ 409) (h5 : s ≠ 422) (h6 : s ≠ 500) :
    handle_response ⟨s, text, jb, url⟩ =
      .error (.runtimeError
        [Json.str ("Error retrieving from API. Got response "
          ++ toString s ++ " with body:\n" ++ text)]) := by
  unfold handle_response
  rw [if_neg h1, if_neg h2, if_neg h3, if_neg h4, if_neg h5, if_neg h6]

lemma errWithDetail_obj (s : Nat) (text url : String)
    (d : Option (List String)) (mk : List Json → PyException) :
    errWithDetail ⟨s, text, some (mkDetailObj d), url⟩ mk =
      .error (mk (detailArgs d text)) := by
  cases d <;>
    simp [errWithDetail, detailIter, mkDetailObj, jlookup, List.find?,
      pyIter, detailArgs]

lemma strListOf_map_str (l : List String) :
    strListOf (l.map Json.str) = some l := by
  induction l with
  | nil => rfl
  | cons a l ih => simp [strListOf, asStr, ih]

/-- C3: for every status code s with 200 <= s <= 299 (not only 200), the
Response Translator returns the decoded payload with no error whenever
the body parses, and fails with the malformed-response error (the
`ValueError` branch of `_handle_response`, the spec's
`MalformedResponseError`) carrying the raw text whenever it does not. -/
theorem C3_translator_2xx (s : Nat) (text url : String)
    (h1 : 200 ≤ s) (h2 : s ≤ 299) :
    (∀ j : Json, handle_response ⟨s, text, some j, url⟩ = .ok j) ∧
    handle_response ⟨s, text, none, url⟩ =
      .error (.valueError
        [Json.str ("Bad response from API. Expected json, got\n" ++ text)]) :=
  ⟨fun j => handle_2xx_ok s text url j h1 (by omega),
   handle_2xx_bad s text url h1 (by omega)⟩

/-- C3 witness: the theorem instantiated at status 250 with a decodable
and an undecodable body. -/
theorem C3_translator_2xx_witness :
    handle_response ⟨250, "x", some (Json.str "v"), "u"⟩ = .ok (Json.str "v") ∧
    handle_response ⟨250, "x", none, "u"⟩ =
      .error (.valueError
        [Json.str ("Bad response from API. Expected json, got\n" ++ "x")]) :=
  ⟨(C3_translator_2xx 250 "x" "u" (by decide) (by decide)).1 (Json.str "v"),
   (C3_translator_2xx 250 "x" "u" (by decide) (by decide)).2⟩

/-- C9: for every 401, 404, 409 or 422 response whose body does not
decode as JSON, the translator raises the body-decoding failure
(`JSONDecodeError` from `response.json()`) instead of the typed error of
that status, because those four branches parse the body unconditionally;
the success (2xx), 500 and unlisted-status branches produce their
prescribed result for arbitrary bodies. -/
theorem C9_json_required_branches (text url : String) :
    handle_response ⟨401, text, none, url⟩ = .error .jsonDecodeError ∧
    handle_response ⟨404, text, none, url⟩ = .error .jsonDecodeError ∧
    handle_response ⟨409, text, none, url⟩ = .error .jsonDecodeError ∧
    handle_response ⟨422, text, none, url⟩ = .error .jsonDecodeError ∧
    (∀ s : Nat, 200 ≤ s → s < 300 →
      handle_response ⟨s, text, none, url⟩ =
        .error (.valueError
          [Json.str ("Bad response from API. Expected json, got\n" ++ text)]) ∧
      ∀ j : Json, handle_response ⟨s, text, some j, url⟩ = .ok j) ∧
    (∀ jb : Option Json,
      handle_response ⟨500, text, jb, url⟩ = .error (.keyError [Json.str text])) ∧
    (∀ (jb : Option Json) (s : Nat), ¬ (200 ≤ s ∧ s < 300) →
      s ≠ 401 → s ≠ 404 → s ≠ 409 → s ≠ 422 → s ≠ 500 →
      handle_response ⟨s, text, jb, url⟩ =
        .error (.runtimeError
          [Json.str ("Error retrieving from API. Got response "
            ++ toString s ++ " with body:\n" ++ text)])) := by
  refine ⟨?_, ?_, ?_, ?_, ?_, ?_, ?_⟩
  · simp [handle_response]
  · by_cases h : strContains text "DoesNotExistException" = false <;>
      simp [handle_response, errWithDetail, detailIter, h]
  · simp [handle_response, errWithDetail, detailIter]
  · simp [handle_response, errWithDetail, detailIter]
  · exact fun s h1 h2 =>
      ⟨handle_2xx_bad s text url h1 h2, fun j => handle_2xx_ok s text url j h1 h2⟩
  · exact handle_500 text url
  · exact fun jb s h1 h2 h3 h4 h5 h6 =>
      handle_unlisted s text url jb h1 h2 h3 h4 h5 h6

/-- C9 witness: the theorem instantiated at concrete undecodable-body
responses for each of the four statuses and the surrounding branches. -/
theorem C9_json_required_branches_witness :
    handle_response ⟨401, "nope", none, "u"⟩ = .error .jsonDecodeError ∧
    handle_response ⟨404, "nope", none, "u"⟩ = .error .jsonDecodeError ∧
    handle_response ⟨409, "nope", none, "u"⟩ = .error .jsonDecodeError ∧
    handle_response ⟨422, "nope", none, "u"⟩ = .error .jsonDecodeError ∧
    handle_response ⟨500, "nope", none, "u"⟩ =
      .error (.keyError [Json.str "nope"]) ∧
    handle_response ⟨418, "nope", none, "u"⟩ =
      .error (.runtimeError
        [Json.str ("Error retrieving from API. Got response "
          ++ toString 418 ++ " with body:\n" ++ "nope")]) :=
  ⟨(C9_json_required_branches "nope" "u").1,
   (C9_json_required_branches "nope" "u").2.1,
   (C9_json_required_branches "nope" "u").2.2.1,
   (C9_json_required_branches "nope" "u").2.2.2.1,
   (C9_json_required_branches "nope" "u").2.2.2.2.2.1 none,
   (C9_json_required_branches "nope" "u").2.2.2.2.2.2 none 418 (by omega)
     (by decide) (by decide) (by decide) (by decide) (by decide)⟩

/-- C10: the error taxonomy collapses at the translator's interface: a
404 without the does-not-exist marker and a 500 both raise `KeyError`, a
422 and an unlisted status (418) both raise `RuntimeError`, and a generic
409 conflict and an unparsable 2xx body both raise `ValueError`; in each
pair the two concrete (status, body) inputs are distinct yet the raised
exceptions have the same Python type. -/
theorem C10_taxonomy_collapse :
    (handle_response ⟨404, "\x7b\"detail\": [\"stack missing\"]\x7d",
        some (mkDetailObj (some ["stack missing"])), "u"⟩ =
      .error (.keyError [Json.str "stack missing"]) ∧
     handle_response ⟨500, "boom", none, "u"⟩ =
      .error (.keyError [Json.str "boom"]) ∧
     pyTypeName (.keyError [Json.str "stack missing"]) =
      pyTypeName (.keyError [Json.str "boom"]) ∧
     (404 : Nat) ≠ 500) ∧
    (handle_response ⟨422, "\x7b\"detail\": [\"invalid\"]\x7d",
        some (mkDetailObj (some ["invalid"])), "u"⟩ =
      .error (.runtimeError [Json.str "invalid"]) ∧
     handle_response ⟨418, "teapot", none, "u"⟩ =
      .error (.runtimeError
        [Json.str "Error retrieving from API. Got response 418 with body:\nteapot"]) ∧
     pyTypeName (.runtimeError [Json.str "invalid"]) =
      pyTypeName (.runtimeError [Json.str "teapot-msg"]) ∧
     (422 : Nat) ≠ 418) ∧
    (handle_response ⟨409, "\x7b\"detail\": [\"dup\"]\x7d",
        some (mkDetailObj (some ["dup"])), "u"⟩ =
      .error (.valueError [Json.str "dup"]) ∧
     handle_response ⟨200, "nope", none, "u"⟩ =
      .error (.valueError
        [Json.str "Bad response from API. Expected json, got\nnope"]) ∧
     pyTypeName (.valueError [Json.str "dup"]) =
      pyTypeName (.valueError [Json.str "whatever"]) ∧
     (409 : Nat) ≠ 200) :=
  ⟨⟨rfl, rfl, rfl, by decide⟩, ⟨rfl, rfl, rfl, by decide⟩,
   ⟨rfl, rfl, rfl, by decide⟩⟩

/-- C4 (as stated, refuted): a 409 response whose body does not decode
as JSON and contains none of the marker substrings raises the
body-decoding failure, not the generic conflict `ValueError` carrying
the raw text that the claim prescribes for every 409. -/
theorem C4_counterexample :
    handle_response ⟨409, "conflict", none, "u"⟩ = .error .jsonDecodeError ∧
    (Except.error PyException.jsonDecodeError : Except PyException Json) ≠
      .error (.valueError [Json.str "conflict"]) :=
  ⟨rfl, by simp⟩

/-- C4 (amended): for every 409 response whose body decodes as a JSON
object whose `detail` field, when present, is a list of strings, the
translator selects the error by marker substrings of the raw text in
the fixed precedence "StackComponentExistsError" then "StackExistsError"
then "EntityExistsError" then the generic conflict `ValueError`, each
carrying the detail list or the raw text. -/
theorem C4_conflict_markers (text url : String) (d : Option (List String)) :
    (strContains text "StackComponentExistsError" = true →
      handle_response ⟨409, text, some (mkDetailObj d), url⟩ =
        .error (.stackComponentExistsError (detailArgs d text))) ∧
    (strContains text "StackComponentExistsError" = false →
     strContains text "StackExistsError" = true →
      handle_response ⟨409, text, some (mkDetailObj d), url⟩ =
        .error (.stackExistsError (detailArgs d text))) ∧
    (strContains text "StackComponentExistsError" = false →
     strContains text "StackExistsError" = false →
     strContains text "EntityExistsError" = true →
      handle_response ⟨409, text, some (mkDetailObj d), url⟩ =
        .error (.entityExistsError (detailArgs d text))) ∧
    (strContains text "StackComponentExistsError" = false →
     strContains text "StackExistsError" = false →
     strContains text "EntityExistsError" = false →
      handle_response ⟨409, text, some (mkDetailObj d), url⟩ =
        .error (.valueError (detailArgs d text))) := by
  refine ⟨?_, ?_, ?_, ?_⟩ <;> intros <;>
    simp [handle_response, *, errWithDetail_obj]

/-- C4 witness: the amended theorem instantiated at one body per marker
branch, hypotheses discharged by evaluation. -/
theorem C4_conflict_markers_witness :
    handle_response ⟨409, "StackComponentExistsError: dup",
        some (mkDetailObj (some ["dup"])), "u"⟩ =
      .error (.stackComponentExistsError [Json.str "dup"]) ∧
    handle_response ⟨409, "StackExistsError: dup",
        some (mkDetailObj (some ["dup"])), "u"⟩ =
      .error (.stackExistsError [Json.str "dup"]) ∧
    handle_response ⟨409, "EntityExistsError: dup",
        some (mkDetailObj (some ["dup"])), "u"⟩ =
      .error (.entityExistsError [Json.str "dup"]) ∧
    handle_response ⟨409, "dup", some (mkDetailObj none), "u"⟩ =
      .error (.valueError [Json.str "dup"]) :=
  ⟨(C4_conflict_markers "StackComponentExistsError: dup" "u" (some ["dup"])).1
      rfl,
   (C4_conflict_markers "StackExistsError: dup" "u" (some ["dup"])).2.1
      rfl rfl,
   (C4_conflict_markers "EntityExistsError: dup" "u" (some ["dup"])).2.2.1
      rfl rfl rfl,
   (C4_conflict_markers "dup" "u" none).2.2.2 rfl rfl rfl⟩

/-- C5 (as stated, refuted): a 404 response whose body does not decode
as JSON (and lacks the does-not-exist marker) raises the body-decoding
failure, not the generic `KeyError` carrying the raw text that the
claim prescribes for every marker-free 404. -/
theorem C5_counterexample :
    handle_response ⟨404, "missing", none, "u"⟩ = .error .jsonDecodeError ∧
    (Except.error PyException.jsonDecodeError : Except PyException Json) ≠
      .error (.keyError [Json.str "missing"]) :=
  ⟨rfl, by simp⟩

/-- C5 (amended): for every 404 response whose body decodes as a JSON
object whose `detail` field, when present, is a list of strings: if the
raw text contains "DoesNotExistException" the translator fails with
`DoesNotExistException` whose message joins the detail list (or the raw
text) with ": "; otherwise it fails with `KeyError` carrying the detail
list or the raw text. -/
theorem C5_not_found_markers (text url : String) (d : Option (List String)) :
    (strContains text "DoesNotExistException" = false →
      handle_response ⟨404, text, some (mkDetailObj d), url⟩ =
        .error (.keyError (detailArgs d text))) ∧
    (strContains text "DoesNotExistException" = true →
      handle_response ⟨404, text, some (mkDetailObj d), url⟩ =
        .error (.doesNotExistException
          (String.intercalate ": " (d.getD [text])))) := by
  constructor
  · intro h
    simp [handle_response, h, errWithDetail_obj]
  · intro h
    cases d <;>
      simp [handle_response, h, detailIter, mkDetailObj, jlookup,
        List.find?, pyIter, pyJoin, strListOf, asStr, strListOf_map_str]

/-- C5 witness: the amended theorem instantiated at the spec's two
example bodies. -/
theorem C5_not_found_markers_witness :
    handle_response ⟨404, "\x7b\"detail\": [\"DoesNotExistException\", \"no such stack\"]\x7d",
        some (mkDetailObj (some ["DoesNotExistException", "no such stack"])), "u"⟩ =
      .error (.doesNotExistException "DoesNotExistException: no such stack") ∧
    handle_response ⟨404, "\x7b\"detail\": [\"stack missing\"]\x7d",
        some (mkDetailObj (some ["stack missing"])), "u"⟩ =
      .error (.keyError [Json.str "stack missing"]) :=
  ⟨(C5_not_found_markers
      "\x7b\"detail\": [\"DoesNotExistException\", \"no such stack\"]\x7d" "u"
      (some ["DoesNotExistException", "no such stack"])).2 rfl,
   (C5_not_found_markers "\x7b\"detail\": [\"stack missing\"]\x7d" "u"
      (some ["stack missing"])).1 rfl⟩

/-- C6 (as stated, refuted): a 422 response whose body does not decode
as JSON raises the body-decoding failure, not the validation
`RuntimeError` carrying the raw text that the claim prescribes for
every 422. -/
theorem C6_counterexample :
    handle_response ⟨422, "bad", none, "u"⟩ = .error .jsonDecodeError ∧
    (Except.error PyException.jsonDecodeError : Except PyException Json) ≠
      .error (.runtimeError [Json.str "bad"]) :=
  ⟨rfl, by simp⟩

/-- C6 (amended): a 422 response whose body decodes as a JSON object
(with `detail`, when present, a list of strings) fails with the
validation `RuntimeError` carrying the detail list or the raw text; a
500 fails with `KeyError` carrying the raw text for every body; and any
status outside 200-299 other than 401, 404, 409, 422 and 500 fails with
the unexpected-status `RuntimeError` carrying the status and raw text,
for every body. -/
theorem C6_422_500_other (text url : String) (d : Option (List String))
    (jb : Option Json) (s : Nat) :
    handle_response ⟨422, text, some (mkDetailObj d), url⟩ =
      .error (.runtimeError (detailArgs d text)) ∧
    handle_response ⟨500, text, jb, url⟩ =
      .error (.keyError [Json.str text]) ∧
    (¬ (200 ≤ s ∧ s < 300) → s ≠ 401 → s ≠ 404 → s ≠ 409 → s ≠ 422 →
     s ≠ 500 →
      handle_response ⟨s, text, jb, url⟩ =
        .error (.runtimeError
          [Json.str ("Error retrieving from API. Got response "
            ++ toString s ++ " with body:\n" ++ text)])) :=
  ⟨by simp [handle_response, errWithDetail_obj],
   handle_500 text url jb,
   fun h1 h2 h3 h4 h5 h6 => handle_unlisted s text url jb h1 h2 h3 h4 h5 h6⟩

/-- C6 witness: the amended theorem instantiated at a 422 with a detail
list, a 500 with an undecodable body, and status 418. -/
theorem C6_422_500_other_witness :
    handle_response ⟨422, "\x7b\"detail\": [\"invalid\"]\x7d",
        some (mkDetailObj (some ["invalid"])), "u"⟩ =
      .error (.runtimeError [Json.str "invalid"]) ∧
    handle_response ⟨500, "boom!", none, "u"⟩ =
      .error (.keyError [Json.str "boom!"]) ∧
    handle_response ⟨418, "teapot", none, "u"⟩ =
      .error (.runtimeError
        [Json.str ("Error retrieving from API. Got response "
          ++ toString 418 ++ " with body:\n" ++ "teapot")]) :=
  ⟨(C6_422_500_other "\x7b\"detail\": [\"invalid\"]\x7d" "u" (some ["invalid"])
      none 418).1,
   (C6_422_500_other "boom!" "u" none none 418).2.1,
   (C6_422_500_other "teapot" "u" none none 418).2.2 (by omega) (by decide)
     (by decide) (by decide) (by decide) (by decide)⟩

/-! Dispatcher and session lemmas. -/

lemma headerOf_auth (v : String) :
    headerOf ⟨[("Authorization", v)]⟩ = some v := rfl

lemma session_prop_cached (t : Transport) (st : StoreState) (l : Nat)
    (s : Session) (h : st.session = some s) :
    session_prop t st l = (.ok s, st, l) := by
  unfold session_prop
  rw [h]

lemma session_prop_fresh (t : Transport) (st : StoreState) (l : Nat)
    (tok : String) (h : st.session = none)
    (h2 : st.api_token = some (Json.str tok)) :
    session_prop t st l =
      (.ok ⟨[("Authorization", "Bearer " ++ tok)]⟩,
       ⟨some (Json.str tok), some ⟨[("Authorization", "Bearer " ++ tok)]⟩⟩,
       l) := by
  cases st with
  | mk a ss =>
    cases h
    cases h2
    rfl

lemma session_prop_login (t : Transport) (st : StoreState) (l : Nat)
    (fields : List (String × Json)) (tok : String)
    (h : st.session = none) (h2 : st.api_token = none)
    (h3 : handle_response (t.login l) = .ok (Json.obj fields))
    (h4 : jlookup fields "token" = some (Json.str tok)) :
    session_prop t st l =
      (.ok ⟨[("Authorization", "Bearer " ++ tok)]⟩,
       ⟨some (Json.str tok), some ⟨[("Authorization", "Bearer " ++ tok)]⟩⟩,
       l + 1) := by
  cases st with
  | mk a ss =>
    cases h
    cases h2
    unfold session_prop get_auth_token
    simp [h3, h4]

/-- C1: whenever the first attempt of a dispatch acquires a session (so
a first request is issued and translated) and the store carries a string
token: if the first translated response is `AuthorizationException`, the
dispatcher drops the session and re-issues the same request exactly
once, so exactly two requests are issued, and the second attempt's
translated outcome — success, `AuthorizationException` again, or any
other error — propagates unchanged with no further retry; any non-auth
error from the first attempt propagates immediately after exactly one
request; a successful first attempt returns after exactly one request. -/
theorem C1_single_auth_retry (t : Transport) (st : StoreState)
    (s1 : Session) (st1 : StoreState) (l1 : Nat) (tok : String)
    (hsess : session_prop t st 0 = (.ok s1, st1, l1))
    (htok : st1.api_token = some (Json.str tok)) :
    (∀ m, handle_response (t.request 0) =
        .error (.authorizationException m) →
      rest_request t st =
        ⟨handle_response (t.request 1),
         ⟨some (Json.str tok),
          some ⟨[("Authorization", "Bearer " ++ tok)]⟩⟩,
         [headerOf s1, some ("Bearer " ++ tok)], l1⟩) ∧
    (∀ e, handle_response (t.request 0) = .error e → isAuthEx e = false →
      rest_request t st = ⟨.error e, st1, [headerOf s1], l1⟩) ∧
    (∀ v, handle_response (t.request 0) = .ok v →
      rest_request t st = ⟨.ok v, st1, [headerOf s1], l1⟩) := by
  have hretry := session_prop_fresh t { st1 with session := none } l1 tok
    rfl htok
  refine ⟨fun m hreq => ?_, fun e hreq hna => ?_, fun v hreq => ?_⟩
  · simp [rest_request, attempt, hsess, hreq, isAuthEx, hretry,
      headerOf_auth]
  · simp [rest_request, attempt, hsess, hreq, hna]
  · simp [rest_request, attempt, hsess, hreq]

/-- C1 witness: a mock transport answering 401 then 200 from a fresh
store: exactly two requests are issued and the 200 payload is returned;
the theorem is applied with its session and token hypotheses discharged
by evaluation. -/
theorem C1_single_auth_retry_witness :
    rest_request
      ⟨fun _ => ⟨200, "", some (Json.obj [("token", Json.str "tk")]), ""⟩,
       fun n => if n = 0 then
          ⟨401, "expired", some (Json.obj [("detail", Json.str "expired")]),
           "http://h/x"⟩
        else ⟨200, "", some (Json.str "payload"), ""⟩⟩
      ⟨none, none⟩ =
      ⟨.ok (Json.str "payload"),
       ⟨some (Json.str "tk"), some ⟨[("Authorization", "Bearer tk")]⟩⟩,
       [some "Bearer tk", some "Bearer tk"], 1⟩ :=
  (C1_single_auth_retry
      ⟨fun _ => ⟨200, "", some (Json.obj [("token", Json.str "tk")]), ""⟩,
       fun n => if n = 0 then
          ⟨401, "expired", some (Json.obj [("detail", Json.str "expired")]),
           "http://h/x"⟩
        else ⟨200, "", some (Json.str "payload"), ""⟩⟩
      ⟨none, none⟩ ⟨[("Authorization", "Bearer tk")]⟩
      ⟨some (Json.str "tk"), some ⟨[("Authorization", "Bearer tk")]⟩⟩ 1 "tk"
      rfl rfl).1
    "401 Client Error: Unauthorized request to URL http://h/x: expired" rfl

/-- C2 (claim refuted by the code): from a fresh store, with a login
endpoint that would hand out token "tok1" on the first exchange and
"tok2" on a second, and a transport answering 401 to both requests, the
dispatch performs exactly one credential exchange and presents the same
header "Bearer tok1" on both attempts, and the final state still caches
token "tok1": the `except AuthorizationException` clause of `_request`
sets only `self._session = None` and `_get_auth_token` returns the
cached `self._api_token`, so the retried request re-presents the
rejected token instead of a freshly acquired one, contradicting the
claim (and the source's own comment "refresh it and try again"). -/
theorem C2_retry_reuses_rejected_token :
    rest_request
      ⟨fun n => ⟨200, "",
          some (Json.obj [("token", Json.str (if n = 0 then "tok1" else "tok2"))]),
          ""⟩,
       fun _ => ⟨401, "expired",
          some (Json.obj [("detail", Json.str "expired")]), "http://h/x"⟩⟩
      ⟨none, none⟩ =
      ⟨.error (.authorizationException
          "401 Client Error: Unauthorized request to URL http://h/x: expired"),
       ⟨some (Json.str "tok1"), some ⟨[("Authorization", "Bearer tok1")]⟩⟩,
       [some "Bearer tok1", some "Bearer tok1"], 1⟩ := rfl

/-- C8: the cached session and token are lazily initialized and stable:
(a) from a fresh store, a dispatch whose login exchange yields a string
token and whose request succeeds performs exactly one credential
exchange, caches the token and a session presenting it as the bearer
Authorization header, and returns the payload; (b) from any store state
with a cached session, a successful dispatch issues exactly one request
through that session, performs no login, and leaves the state unchanged
— the cached state is reset only by the invalidation in the auth-retry
path, never by a successful operation. -/
theorem C8_lazy_session_stable :
    (∀ (t : Transport) (fields : List (String × Json)) (tok : String)
        (v : Json),
      handle_response (t.login 0) = .ok (Json.obj fields) →
      jlookup fields "token" = some (Json.str tok) →
      handle_response (t.request 0) = .ok v →
      rest_request t ⟨none, none⟩ =
        ⟨.ok v,
         ⟨some (Json.str tok),
          some ⟨[("Authorization", "Bearer " ++ tok)]⟩⟩,
         [some ("Bearer " ++ tok)], 1⟩) ∧
    (∀ (t : Transport) (st : StoreState) (s : Session) (v : Json),
      st.session = some s →
      handle_response (t.request 0) = .ok v →
      rest_request t st = ⟨.ok v, st, [headerOf s], 0⟩) := by
  constructor
  · intro t fields tok v hlog hfind hreq
    have h := session_prop_login t ⟨none, none⟩ 0 fields tok rfl rfl hlog
      hfind
    simp [rest_request, attempt, h, hreq, headerOf_auth]
  · intro t st s v hs hreq
    simp [rest_request, attempt, session_prop_cached t st 0 s hs, hreq]

/-- C8 witness: the theorem applied to a concrete transport, first from
the fresh state and then from the authenticated state it produced. -/
theorem C8_lazy_session_stable_witness :
    rest_request
      ⟨fun _ => ⟨200, "", some (Json.obj [("token", Json.str "tk")]), ""⟩,
       fun _ => ⟨200, "", some (Json.str "payload"), ""⟩⟩
      ⟨none, none⟩ =
      ⟨.ok (Json.str "payload"),
       ⟨some (Json.str "tk"), some ⟨[("Authorization", "Bearer tk")]⟩⟩,
       [some "Bearer tk"], 1⟩ ∧
    rest_request
      ⟨fun _ => ⟨200, "", some (Json.obj [("token", Json.str "tk")]), ""⟩,
       fun _ => ⟨200, "", some (Json.str "payload"), ""⟩⟩
      ⟨some (Json.str "tk"), some ⟨[("Authorization", "Bearer tk")]⟩⟩ =
      ⟨.ok (Json.str "payload"),
       ⟨some (Json.str "tk"), some ⟨[("Authorization", "Bearer tk")]⟩⟩,
       [some "Bearer tk"], 0⟩ :=
  ⟨C8_lazy_session_stable.1
      ⟨fun _ => ⟨200, "", some (Json.obj [("token", Json.str "tk")]), ""⟩,
       fun _ => ⟨200, "", some (Json.str "payload"), ""⟩⟩
      [("token", Json.str "tk")] "tk" (Json.str "payload") rfl rfl rfl,
   C8_lazy_session_stable.2
      ⟨fun _ => ⟨200, "", some (Json.obj [("token", Json.str "tk")]), ""⟩,
       fun _ => ⟨200, "", some (Json.str "payload"), ""⟩⟩
      ⟨some (Json.str "tk"), some ⟨[("Authorization", "Bearer tk")]⟩⟩
      ⟨[("Authorization", "Bearer tk")]⟩ (Json.str "payload") rfl rfl⟩

/-! URL validation lemmas. -/

lemma pyAl_h : pyAlnumLower 'h' = true := by decide
lemma pyAl_t : pyAlnumLower 't' = true := by decide
lemma pyAl_p : pyAlnumLower 'p' = true := by decide
lemma pyAl_s : pyAlnumLower 's' = true := by decide
lemma pyAl_colon : pyAlnumLower ':' = false := by decide

lemma drop_length_takeWhile (p : Char → Bool) (l : List Char) :
    l.drop (l.takeWhile p).length = l.dropWhile p := by
  induction l with
  | nil => rfl
  | cons a l ih =>
    by_cases h : p a
    · simp [List.takeWhile_cons, List.dropWhile_cons, h, ih]
    · simp [List.takeWhile_cons, List.dropWhile_cons, h]

lemma takeWhile_http (t : List Char) :
    ("http://".data ++ t).takeWhile pyAlnumLower = "http".data := by
  show (['h', 't', 't', 'p', ':', '/', '/'] ++ t).takeWhile pyAlnumLower = _
  simp [List.takeWhile_cons, pyAl_h, pyAl_t, pyAl_p, pyAl_colon]

lemma takeWhile_https (t : List Char) :
    ("https://".data ++ t).takeWhile pyAlnumLower = "https".data := by
  show (['h', 't', 't', 'p', 's', ':', '/', '/'] ++ t).takeWhile pyAlnumLower = _
  simp [List.takeWhile_cons, pyAl_h, pyAl_t, pyAl_p, pyAl_s, pyAl_colon]

lemma schemeSearchL_http (t : List Char) :
    schemeSearchL ("http://".data ++ t) = some ("http://".data) := by
  unfold schemeSearchL
  rw [takeWhile_http]
  show (if (false : Bool) then _ else _) = _
  simp only [if_false, Bool.false_eq_true, ↓reduceIte]
  rw [show ("http".data).length = 4 from rfl,
    show ("http://".data ++ t).drop 4 = ':' :: '/' :: '/' :: t from rfl]
  simp [List.isPrefixOf]

lemma schemeSearchL_https (t : List Char) :
    schemeSearchL ("https://".data ++ t) = some ("https://".data) := by
  unfold schemeSearchL
  rw [takeWhile_https]
  show (if (false : Bool) then _ else _) = _
  simp only [if_false, Bool.false_eq_true, ↓reduceIte]
  rw [show ("https".data).length = 5 from rfl,
    show ("https://".data ++ t).drop 5 = ':' :: '/' :: '/' :: t from rfl]
  simp [List.isPrefixOf]

lemma schemeSearchL_inv (l g : List Char)
    (h : schemeSearchL l = some g) :
    ∃ t, l = l.takeWhile pyAlnumLower ++ "://".data ++ t ∧
      g = l.takeWhile pyAlnumLower ++ "://".data := by
  unfold schemeSearchL at h
  by_cases h1 : (l.takeWhile pyAlnumLower).isEmpty
  · simp [h1] at h
  · rw [if_neg h1] at h
    by_cases h2 :
        "://".data.isPrefixOf (l.drop (l.takeWhile pyAlnumLower).length)
    · rw [if_pos h2, Option.some_inj] at h
      rw [drop_length_takeWhile] at h2
      obtain ⟨t, ht⟩ := List.isPrefixOf_iff_prefix.mp h2
      refine ⟨t, ?_, h.symm⟩
      conv_lhs => rw [← List.takeWhile_append_dropWhile (p := pyAlnumLower)
        (l := l)]
      rw [← ht, List.append_assoc]
    · rw [if_neg h2] at h
      exact absurd h (by simp)

lemma scheme_of_inv (l g : List Char) (h : schemeSearchL l = some g)
    (hg : g = "https://".data ∨ g = "http://".data) :
    "http://".data <+: l ∨ "https://".data <+: l := by
  obtain ⟨t, hl, hgr⟩ := schemeSearchL_inv l g h
  rcases hg with hg | hg
  · right
    rw [hg] at hgr
    have hrun : l.takeWhile pyAlnumLower = "https".data := by
      have := List.append_inj'
        (hgr.symm.trans (show ("https://".data : List Char) =
          "https".data ++ "://".data from rfl)) rfl
      exact this.1
    exact ⟨t, by rw [hl, hrun]; rfl⟩
  · left
    rw [hg] at hgr
    have hrun : l.takeWhile pyAlnumLower = "http".data := by
      have := List.append_inj'
        (hgr.symm.trans (show ("http://".data : List Char) =
          "http".data ++ "://".data from rfl)) rfl
      exact this.1
    exact ⟨t, by rw [hl, hrun]; rfl⟩

lemma validate_url_none (url : String)
    (hs : schemeSearchL (rstripSlashL url.data) = none) :
    validate_url url = .error urlErrMsg := by
  unfold validate_url
  rw [hs]

lemma validate_url_some (url : String) (g : List Char)
    (hs : schemeSearchL (rstripSlashL url.data) = some g) :
    validate_url url =
      if g = "https://".data ∨ g = "http://".data then
        .ok (String.mk (rstripSlashL url.data))
      else .error urlErrMsg := by
  unfold validate_url
  rw [hs]

lemma rstripSlashL_no_slash (l : List Char) (h : l.getLast? ≠ some '/') :
    rstripSlashL l = l := by
  cases hrev : l.reverse with
  | nil =>
    have hnil : l = [] := by
      have := congrArg List.reverse hrev
      simpa using this
    simp [rstripSlashL, hnil]
  | cons c rest =>
    have hlast := List.head?_reverse l
    rw [hrev] at hlast
    have hc : ¬ (c = '/') := fun he => h (by rw [← hlast, he]; rfl)
    unfold rstripSlashL
    rw [hrev, List.dropWhile_cons]
    rw [decide_eq_false hc]
    simp [← hrev]

/-- C7 (as stated, refuted): the input "https://" begins with
"https://", yet `validate_url` rejects it with the value error: the
source strips trailing slashes before matching the scheme, leaving
"https:". -/
theorem C7_counterexample :
    validate_url "https://" = .error urlErrMsg ∧
    (Except.error urlErrMsg : Except String String) ≠ .ok "https:/" :=
  ⟨rfl, by simp⟩

/-- C7 (amended): `validate_url` accepts exactly the inputs that still
begin with "http://" or "https://" after all trailing slashes are
stripped (so "myhost:8080" is rejected, and so is "https://" alone),
returns the accepted address with all its trailing slashes stripped
(so "https://myhost:8080/" normalizes to "https://myhost:8080"), and
returns an accepted address with no trailing slash unchanged. -/
theorem C7_validate_url (url : String) :
    ((∃ r, validate_url url = .ok r) ↔
      ("http://".data <+: rstripSlashL url.data ∨
       "https://".data <+: rstripSlashL url.data)) ∧
    (∀ r, validate_url url = .ok r → r = String.mk (rstripSlashL url.data)) ∧
    (url.data.getLast? ≠ some '/' → String.mk (rstripSlashL url.data) = url) ∧
    validate_url "myhost:8080" = .error urlErrMsg ∧
    validate_url "https://myhost:8080/" = .ok "https://myhost:8080" := by
  refine ⟨⟨?_, ?_⟩, ?_, ?_, rfl, rfl⟩
  · rintro ⟨r, hr⟩
    cases hs : schemeSearchL (rstripSlashL url.data) with
    | none =>
      rw [validate_url_none url hs] at hr
      exact absurd hr (by simp)
    | some g =>
      rw [validate_url_some url g hs] at hr
      by_cases hg : g = "https://".data ∨ g = "http://".data
      · exact scheme_of_inv _ g hs hg
      · rw [if_neg hg] at hr
        exact absurd hr (by simp)
  · rintro (⟨t, ht⟩ | ⟨t, ht⟩)
    · refine ⟨String.mk (rstripSlashL url.data), ?_⟩
      rw [validate_url_some url ("http://".data)
        (by rw [← ht]; exact schemeSearchL_http t)]
      rw [if_pos (Or.inr rfl)]
    · refine ⟨String.mk (rstripSlashL url.data), ?_⟩
      rw [validate_url_some url ("https://".data)
        (by rw [← ht]; exact schemeSearchL_https t)]
      rw [if_pos (Or.inl rfl)]
  · intro r hr
    cases hs : schemeSearchL (rstripSlashL url.data) with
    | none =>
      rw [validate_url_none url hs] at hr
      exact absurd hr (by simp)
    | some g =>
      rw [validate_url_some url g hs] at hr
      by_cases hg : g = "https://".data ∨ g = "http://".data
      · rw [if_pos hg] at hr
        exact (Except.ok.inj hr).symm
      · rw [if_neg hg] at hr
        exact absurd hr (by simp)
  · intro h
    rw [rstripSlashL_no_slash url.data h]

/-- C7 witness: the amended theorem applied at "https://myhost:8080/",
discharging the acceptance hypothesis with the computed result. -/
theorem C7_validate_url_witness :
    validate_url "https://myhost:8080/" = .ok "https://myhost:8080" ∧
    ("https://myhost:8080" : String) =
      String.mk (rstripSlashL "https://myhost:8080/".data) :=
  ⟨(C7_validate_url "https://myhost:8080/").2.2.2.2,
   (C7_validate_url "https://myhost:8080/").2.1 "https://myhost:8080"
     (C7_validate_url "https://myhost:8080/").2.2.2.2⟩

end ZenRest
